import Mathlib

/-!
Verification of the MCP assistant playground.

This file gives a shallow embedding of the tool-routing and dispatch core of
the repository (app.py, mcp_client.py, mcp_server.py) and proves properties
about it.  Python strings are modelled as lists of characters; machine strings
that carry structured data are parsed by a model of the standard library
JSON decoder (json.loads) restricted to the fragment the program exercises
(objects, arrays, strings with the common escapes, integer numbers, booleans
and null); floating point literals and unicode escapes are outside the model.
-/

namespace MCP

/-- Python strings, modelled as lists of characters. -/
abbrev Str := List Char

/-- Whitespace for the Python str.strip method (ASCII fragment). -/
def isPyWs (c : Char) : Bool :=
  c = ' ' || c = '\t' || c = '\n' || c = '\r' || c = '\x0b' || c = '\x0c'

/-- Model of Python str.strip(): removes leading and trailing whitespace. -/
def pyStrip (s : Str) : Str :=
  ((s.dropWhile isPyWs).reverse.dropWhile isPyWs).reverse

/-- Model of Python str.removeprefix. -/
def removePre (s p : Str) : Str :=
  if p.isPrefixOf s then s.drop p.length else s

/-- Model of Python str.removesuffix. -/
def removeSuf (s q : Str) : Str :=
  if q.isSuffixOf s then s.take (s.length - q.length) else s

/-- JSON values, the result type of the json.loads model. -/
inductive Json where
  | null
  | bool (b : Bool)
  | num (n : Int)
  | str (s : Str)
  | arr (xs : List Json)
  | obj (kvs : List (Str × Json))

/-- Python equality test of a decoded JSON value against a string literal,
as used by the tool-name comparisons in app.py. -/
def Json.isStrVal (j : Json) (s : Str) : Bool :=
  match j with
  | .str t => t == s
  | _ => false

/-- Insertion into a decoded JSON object: the Python dict built by json.loads
keeps the first position of a repeated key but its last value. -/
def insertKV (kvs : List (Str × Json)) (k : Str) (v : Json) : List (Str × Json) :=
  match kvs with
  | [] => [(k, v)]
  | (k0, v0) :: rest => if k0 == k then (k0, v) :: rest else (k0, v0) :: insertKV rest k v

/-- Whitespace accepted between tokens by the JSON grammar. -/
def isJsonWs (c : Char) : Bool :=
  c = ' ' || c = '\t' || c = '\n' || c = '\r'

/-- Skip inter-token whitespace. -/
def skipWs (s : Str) : Str := s.dropWhile isJsonWs

/-- Decode one escape character of a JSON string literal (common escapes;
unicode escapes are outside the model). -/
def escChar (c : Char) : Option Char :=
  if c = '"' then some '"'
  else if c = '\\' then some '\\'
  else if c = '/' then some '/'
  else if c = 'n' then some '\n'
  else if c = 't' then some '\t'
  else if c = 'r' then some '\r'
  else none

/-- Parse the body of a JSON string literal after the opening quote; returns
the decoded body and the remaining input after the closing quote. -/
def parseStrBody (fuel : Nat) (s : Str) : Option (Str × Str) :=
  match fuel, s with
  | 0, _ => none
  | _, [] => none
  | fuel + 1, c :: rest =>
    if c = '"' then some ([], rest)
    else if c = '\\' then
      match rest with
      | [] => none
      | e :: rest2 =>
        match escChar e with
        | some ec => (parseStrBody fuel rest2).map (fun p => (ec :: p.1, p.2))
        | none => none
    else if c.toNat < 32 then none
    else (parseStrBody fuel rest).map (fun p => (c :: p.1, p.2))

/-- Digit test for JSON numbers. -/
def isDigitCh (c : Char) : Bool := '0' ≤ c && c ≤ '9'

/-- Value of a digit string. -/
def digitsToNat (ds : Str) : Nat :=
  ds.foldl (fun a c => a * 10 + (c.toNat - 48)) 0

/-- Parse a JSON integer literal (floating point literals are outside the
model: a fractional part is left as trailing input and rejected at top level). -/
def parseNum (s : Str) : Option (Json × Str) :=
  match s with
  | '-' :: rest =>
    let ds := rest.takeWhile isDigitCh
    if ds = [] then none
    else some (Json.num (-(digitsToNat ds : Int)), rest.drop ds.length)
  | _ =>
    let ds := s.takeWhile isDigitCh
    if ds = [] then none
    else some (Json.num (digitsToNat ds : Int), s.drop ds.length)

mutual

/-- Parse one JSON value; model of the json.loads grammar. -/
def parseVal (fuel : Nat) (s0 : Str) : Option (Json × Str) :=
  match fuel with
  | 0 => none
  | fuel + 1 =>
    let s := skipWs s0
    match s with
    | [] => none
    | c :: rest =>
      if c = '{' then
        match skipWs rest with
        | '}' :: r => some (Json.obj [], r)
        | s1 => parseMembers fuel s1 []
      else if c = '[' then
        match skipWs rest with
        | ']' :: r => some (Json.arr [], r)
        | s1 => parseElems fuel s1 []
      else if c = '"' then
        match parseStrBody (rest.length + 1) rest with
        | some (b, r) => some (Json.str b, r)
        | none => none
      else if ("true".data).isPrefixOf s then some (Json.bool true, s.drop 4)
      else if ("false".data).isPrefixOf s then some (Json.bool false, s.drop 5)
      else if ("null".data).isPrefixOf s then some (Json.null, s.drop 4)
      else parseNum s

/-- Parse the members of a JSON object after the opening brace. -/
def parseMembers (fuel : Nat) (s0 : Str) (acc : List (Str × Json)) :
    Option (Json × Str) :=
  match fuel with
  | 0 => none
  | fuel + 1 =>
    match skipWs s0 with
    | '"' :: rest =>
      match parseStrBody (rest.length + 1) rest with
      | some (k, r1) =>
        match skipWs r1 with
        | ':' :: r2 =>
          match parseVal fuel r2 with
          | some (v, r3) =>
            let acc2 := insertKV acc k v
            match skipWs r3 with
            | ',' :: r4 => parseMembers fuel r4 acc2
            | '}' :: r4 => some (Json.obj acc2, r4)
            | _ => none
          | none => none
        | _ => none
      | none => none
    | _ => none

/-- Parse the elements of a JSON array after the opening bracket. -/
def parseElems (fuel : Nat) (s0 : Str) (acc : List Json) :
    Option (Json × Str) :=
  match fuel with
  | 0 => none
  | fuel + 1 =>
    match parseVal fuel s0 with
    | some (v, r1) =>
      match skipWs r1 with
      | ',' :: r2 => parseElems fuel r2 (acc ++ [v])
      | ']' :: r2 => some (Json.arr (acc ++ [v]), r2)
      | _ => none
    | none => none

end

/-- Model of json.loads: parse a complete JSON document, rejecting trailing
input, and return the decoded value; none models a raised JSONDecodeError. -/
def jsonLoads (s : Str) : Option Json :=
  match parseVal (s.length + 1) s with
  | some (j, rest) => if skipWs rest = [] then some j else none
  | none => none

/-- Lookup of a key in a decoded JSON object; none for a missing key or a
non-object value (Python dict.get with default None, or no dict at all). -/
def jget (j : Json) (k : Str) : Option Json :=
  match j with
  | .obj kvs => List.lookup k kvs
  | _ => none

/-- Outcome of the oracle exchange inside select_tool_using_gpt: either the
stripped-content path is reached with the reply text, or the OpenAI call
itself raised with the given exception text. -/
inductive OracleReply where
  | reply (content : Str)
  | failure (err : Str)

/-- The degraded decision built in the except branch of select_tool_using_gpt
(app.py lines 121 to 126). -/
def fallbackDecision (diag : Str) : Json :=
  Json.obj [("tool".data, Json.str ("chat_gpt4o".data)),
            ("args".data, Json.obj [("prompt".data,
              Json.str ("ERROR: Invalid JSON returned: ".data ++ diag))])]

/-- The markdown-fence stripping of app.py lines 112 to 113: applied only when
the reply both starts with a json-tagged fence and ends with a fence. -/
def fenceStrip (raw : Str) : Str :=
  if ("```json".data).isPrefixOf raw && ("```".data).isSuffixOf raw then
    pyStrip (removeSuf (removePre raw ("```json".data)) ("```".data))
  else raw

/-- Model of select_tool_using_gpt (app.py lines 75 to 126): strip the reply,
remove a json-tagged markdown fence, parse as JSON; any parse failure or
oracle failure yields the degraded chat_gpt4o decision with a diagnostic
prompt.  On parse failure the diagnostic embeds the stripped raw text; on an
oracle failure the local variable raw is unbound and the exception text is
embedded instead. -/
def select_tool_using_gpt (oracle : OracleReply) : Json :=
  match oracle with
  | .failure e => fallbackDecision e
  | .reply content =>
    let raw := fenceStrip (pyStrip content)
    match jsonLoads raw with
    | some j => j
    | none => fallbackDecision raw

/-- Escape one character for JSON serialization. -/
def escOut (c : Char) : Str :=
  if c = '"' then ['\\', '"']
  else if c = '\\' then ['\\', '\\']
  else if c = '\n' then ['\\', 'n']
  else if c = '\t' then ['\\', 't']
  else if c = '\r' then ['\\', 'r']
  else [c]

/-- Serialize a string body for JSON output. -/
def escStr (s : Str) : Str := s.foldr (fun c acc => escOut c ++ acc) []

mutual

/-- Compact model of json.dumps (app.py uses indent 2; the indentation
whitespace is immaterial to every property below and is not modelled). -/
def dumpJson : Json → Str
  | .null => "null".data
  | .bool true => "true".data
  | .bool false => "false".data
  | .num n => (toString n).data
  | .str s => '"' :: escStr s ++ ['"']
  | .arr xs => '[' :: dumpElems xs ++ [']']
  | .obj kvs => '{' :: dumpMembers kvs ++ ['}']

/-- Serialize array elements. -/
def dumpElems : List Json → Str
  | [] => []
  | [x] => dumpJson x
  | x :: xs => dumpJson x ++ [','] ++ dumpElems xs

/-- Serialize object members. -/
def dumpMembers : List (Str × Json) → Str
  | [] => []
  | [(k, v)] => '"' :: escStr k ++ ['"', ':'] ++ dumpJson v
  | (k, v) :: kvs => '"' :: escStr k ++ ['"', ':'] ++ dumpJson v ++ [','] ++ dumpMembers kvs

end

/-- Python str() of a decoded JSON value, as interpolated into f-strings by
app.py (None, True and False follow the Python spellings; containers are
rendered through the serializer, eliding the quote-style difference of the
Python repr). -/
def pyStrJ : Json → Str
  | .null => "None".data
  | .bool true => "True".data
  | .bool false => "False".data
  | .num n => (toString n).data
  | .str s => s
  | .arr xs => dumpJson (.arr xs)
  | .obj kvs => dumpJson (.obj kvs)

/-- A content part of a CallToolResult: either it has a string text attribute
or it does not (non-string text payloads are outside the model). -/
inductive Item where
  | textItem (t : Str)
  | noText

/-- The value bound to result in app.py after the run_tool try block: either a
CallToolResult carrying a content list, the error dict built by the except
branch, or some other plain value. -/
inductive ResVal where
  | content (items : List Item)
  | errdict (e : Str)
  | plain (s : Str)

/-- Outcome of one run_tool invocation as seen by the caller: the returned
value, or a raised exception with its text. -/
inductive TransportOutcome where
  | ok (r : ResVal)
  | exn (e : Str)

/-- A transport is the behaviour of run_tool, keyed by the tool value and the
argument value passed to it. -/
abbrev Transport := Json → Json → TransportOutcome

/-- Model of safe_json applied to result (app.py line 25): a dict serializes;
a CallToolResult object is not JSON-serializable, so str(obj) is returned
(rendered here by a fixed tag, its exact text immaterial below). -/
def safe_json_res : ResVal → Str
  | .errdict e => dumpJson (Json.obj [("error".data, Json.str e)])
  | .content _ => "CallToolResult".data
  | .plain s => dumpJson (Json.str s)

/-- Python str() of the result object, used for clean_description fallbacks. -/
def pyStrOfRes : ResVal → Str
  | .content _ => "CallToolResult".data
  | .errdict e => dumpJson (Json.obj [("error".data, Json.str e)])
  | .plain s => s

/-- is_data_audio_url (app.py lines 31 to 32); the isinstance(str) guard is
absorbed by the model typing text payloads as strings. -/
def is_data_audio_url (t : Str) : Bool :=
  ("data:audio/".data).isPrefixOf t

/-- One entry of the Streamlit conversation history. -/
structure Msg where
  role : Str
  content : Str

/-- The per-conversation Streamlit session state touched by the dispatch code:
messages, selected_tool, last_uploaded_image_url, and the camera widget pair
camera_enabled and captured_image (absent keys are modelled by the neutral
initial values that the in-code initializers assign). -/
structure SessionState where
  messages : List Msg
  selected_tool : Option Str
  camera_enabled : Bool
  captured_image : Option Str
  last_uploaded_image_url : Option Str

/-- The observable outcome of one successful user turn: the final session
state, the ordered run_tool invocations made, the content variable, and the
payloads handed to st.audio, st.image and the description markdown. -/
structure TurnResult where
  state : SessionState
  calls : List (Json × Json)
  content : Str
  audioPlayed : Option Str
  imageShown : Option Str
  described : Option Str

/-- An unhandled exception escaping the turn: its text, the session state at
the point of the raise (Streamlit keeps mutations already made), and the
run_tool invocations made before the raise. -/
structure Fault where
  exc : Str
  state : SessionState
  calls : List (Json × Json)

/-- Model of args.get with a string default inside an f-string: returns the
printed value, or none when args is not a dict (AttributeError, caught by the
enclosing try in both uses). -/
def pyGetPrompt (args : Json) : Option Str :=
  match args with
  | .obj kvs => some (pyStrJ ((List.lookup ("prompt".data) kvs).getD (Json.str [])))
  | _ => none

/-- The generic envelope of the final else branch (app.py line 264). -/
def elseEnvelope (tool : Json) (result : ResVal) : Str :=
  "**✅ Tool:** `".data ++ pyStrJ tool ++ "`\n\n```json\n".data ++
    safe_json_res result ++ "\n```".data

/-- The tail of the turn (app.py lines 266 to 268): append the assistant
message only when the stripped content is non-empty. -/
def finishTurn (stt : SessionState) (calls : List (Json × Json)) (content : Str)
    (audio imgShown described : Option Str) : Except Fault TurnResult :=
  let st2 := if pyStrip content ≠ [] then
      { stt with messages := stt.messages ++ [⟨"assistant".data, content⟩] }
    else stt
  .ok ⟨st2, calls, content, audio, imgShown, described⟩

/-- The gen_image_dalle3 branch body (app.py lines 176 to 190) run inside its
try block: produces the content text and the st.image payload.  st.image runs
before the f-string touches args, so the image is shown even when args.get
raises; the except branch then formats str(e). -/
def genImageBranch (args : Json) (result : ResVal) : Str × Option Str :=
  match result with
  | .content [] => ("❌ Error parsing image: list index out of range".data, none)
  | .content (Item.textItem t :: _) =>
    (match pyGetPrompt args with
     | some p => ("🖼️ *DALL·E image for:* `".data ++ p ++ "`".data, some t)
     | none => ("❌ Error parsing image: AttributeError".data, some t))
  | .content (Item.noText :: _) =>
    ("⚠️ Unexpected format:\n\n```json\n".data ++ safe_json_res result ++ "\n```".data, none)
  | _ =>
    ("⚠️ No image content found:\n\n```json\n".data ++ safe_json_res result ++ "\n```".data, none)

/-- The text_to_speech_gpt4o branch body (app.py lines 192 to 212) run inside
its try block: produces the content text and the st.audio payload, gated
strictly on the data-audio prefix. -/
def ttsBranch (args : Json) (result : ResVal) : Str × Option Str :=
  match result with
  | .content [] => ("❌ Error handling audio response:\n\nlist index out of range".data, none)
  | .content (Item.textItem t :: _) =>
    if is_data_audio_url t then
      (match pyGetPrompt args with
       | some p => ("🔊 *Speech synthesized for:* `".data ++ p ++ "`".data, some t)
       | none => ("❌ Error handling audio response:\n\nAttributeError".data, some t))
    else
      ("❌ Invalid audio data URL:\n\n```json\n".data ++ dumpJson (Json.str t) ++ "\n```".data, none)
  | .content (Item.noText :: _) =>
    ("⚠️ Unexpected audio content:\n\n```json\n".data ++ safe_json_res result ++ "\n```".data, none)
  | _ =>
    ("⚠️ No audio content returned:\n\n```json\n".data ++ safe_json_res result ++ "\n```".data, none)

/-- Model of the per-turn dispatch block of app.py (lines 158 to 268) for one
non-empty user input.  External collaborators are parameters: the transport is
the behaviour of run_tool; checkbox and picture are the camera widget inputs
returned by st.checkbox and st.camera_input on this run; uploadUrl is the
public URL the artifact store returns for an upload on this run.  The oracle
reply drives select_tool_using_gpt.  A Fault is an exception that escapes the
block (there is no handler around routing.get on a non-dict decision, nor
around the second run_tool call and its result indexing in the describe
branch). -/
def run_turn (transport : Transport) (checkbox : Bool) (picture : Option Str)
    (uploadUrl : Str) (oracle : OracleReply) (user_input : Str)
    (st0 : SessionState) : Except Fault TurnResult :=
  let st1 : SessionState :=
    { st0 with messages := st0.messages ++ [⟨"user".data, user_input⟩] }
  match select_tool_using_gpt oracle with
  | Json.obj kvs =>
    let tool : Json := (List.lookup ("tool".data) kvs).getD Json.null
    let args : Json := (List.lookup ("args".data) kvs).getD (Json.obj [])
    let result : ResVal :=
      match transport tool args with
      | .ok r => r
      | .exn e => .errdict e
    if tool.isStrVal ("gen_image_dalle3".data) then
      let st2 := { st1 with selected_tool := some ("gen_image_dalle3".data) }
      let pair := genImageBranch args result
      finishTurn st2 [(tool, args)] pair.1 none pair.2 none
    else if tool.isStrVal ("text_to_speech_gpt4o".data) then
      let st2 := { st1 with selected_tool := some ("text_to_speech_gpt4o".data) }
      let pair := ttsBranch args result
      finishTurn st2 [(tool, args)] pair.1 pair.2 none none
    else if tool.isStrVal ("capture_image_from_camera".data) then
      let st2 := { st1 with selected_tool := some ("capture_image_from_camera".data),
                            camera_enabled := checkbox }
      let st3 := if st2.camera_enabled then
          match picture with
          | some p => { st2 with captured_image := some p }
          | none => st2
        else st2
      match st3.captured_image with
      | some _ =>
        let st4 := { st3 with last_uploaded_image_url := some uploadUrl }
        finishTurn st4 [(tool, args)]
          ("📸 [Image captured from camera] ".data ++ uploadUrl) none none none
      | none =>
        finishTurn st3 [(tool, args)]
          ("📷 Please take a picture to proceed.".data) none none none
    else if tool.isStrVal ("describe_image_from_camera".data) then
      let st2 := { st1 with selected_tool := some ("describe_image_from_camera".data) }
      match st2.last_uploaded_image_url with
      | some url =>
        let dtool : Json := Json.str ("describe_image_from_camera".data)
        let dargs : Json := Json.obj [("image_url".data, Json.str url)]
        match transport dtool dargs with
        | .exn e => .error ⟨e, st2, [(tool, args), (dtool, dargs)]⟩
        | .ok r =>
          match r with
          | .content [] =>
            .error ⟨"IndexError: list index out of range".data, st2,
                    [(tool, args), (dtool, dargs)]⟩
          | .content (Item.textItem t :: _) =>
            finishTurn st2 [(tool, args), (dtool, dargs)] [] none none (some t)
          | .content (Item.noText :: _) =>
            finishTurn st2 [(tool, args), (dtool, dargs)] [] none none (some (pyStrOfRes r))
          | _ =>
            finishTurn st2 [(tool, args), (dtool, dargs)] [] none none (some (pyStrOfRes r))
      | none =>
        finishTurn st2 [(tool, args)]
          ("📸 Please capture an image first.".data) none none none
    else
      finishTurn st1 [(tool, args)] (elseEnvelope tool result) none none none
  | _ => .error ⟨"AttributeError: no attribute get".data, st1, []⟩

/-- The run_tool invocations made during a turn, whether or not the turn
completed. -/
def outcomeCalls : Except Fault TurnResult → List (Json × Json)
  | .ok r => r.calls
  | .error f => f.calls

/-- The session state of a fresh conversation: empty history, no selected
tool, camera widget off, nothing captured or uploaded. -/
def initState : SessionState := ⟨[], none, false, none, none⟩

/-- A transport that answers every invocation with the same value and never
raises. -/
def constTransport (r : ResVal) : Transport := fun _ _ => .ok r

/-- A member row of the record store (mcp_server.py). -/
structure Member where
  id : Str
  name : Str
  email : Str
  role : Str
  status : Str
  created_at : Str

/-- The JSON value a Python optional string argument contributes to a request
payload: null when the argument was omitted. -/
def optToJson : Option Str → Json
  | none => Json.null
  | some s => Json.str s

/-- The update payload built by update_member (mcp_server.py lines 215 to
220): all four optional fields are always present, omitted ones as null. -/
def update_member_payload (name email role status : Option Str) :
    List (Str × Json) :=
  [("name".data, optToJson name),
   ("email".data, optToJson email),
   ("role".data, optToJson role),
   ("status".data, optToJson status)]

/-- The rows the record store returns for an exact id filter, the response
data both lookup tools act on. -/
def rowsForId (store : List Member) (member_id : Str) : List Member :=
  store.filter (fun m => m.id == member_id)

/-- Model of get_member_by_id (mcp_server.py lines 160 to 168): the first row
of the response data if any, otherwise Python None, modelled as none. -/
def get_member_by_id (store : List Member) (member_id : Str) : Option Member :=
  match rowsForId store member_id with
  | [] => none
  | m :: _ => some m

/-- Model of delete_member (mcp_server.py lines 226 to 234): indexes the
response data at 0 with no emptiness guard, so an empty result set raises
IndexError, modelled as the error case. -/
def delete_member (store : List Member) (member_id : Str) : Except Str Member :=
  match rowsForId store member_id with
  | [] => .error ("IndexError: list index out of range".data)
  | m :: _ => .ok m

/-! General lemmas about the string helpers and the turn skeleton. -/

theorem isPrefixOf_append_self (l t : Str) : l.isPrefixOf (l ++ t) = true := by
  induction l with
  | nil => simp [List.isPrefixOf]
  | cons a l ih => simp [List.isPrefixOf, ih]

theorem isSuffixOf_append_self (l t : Str) : l.isSuffixOf (t ++ l) = true := by
  unfold List.isSuffixOf
  rw [List.reverse_append]
  exact isPrefixOf_append_self l.reverse t.reverse

theorem pyStrip_keep (a b : Char) (mid : Str) (ha : isPyWs a = false)
    (hb : isPyWs b = false) : pyStrip (a :: (mid ++ [b])) = a :: (mid ++ [b]) := by
  unfold pyStrip
  rw [List.dropWhile_cons, ha]
  simp only [Bool.false_eq_true, if_false, List.reverse_cons, List.reverse_append,
    List.reverse_nil, List.nil_append, List.singleton_append, List.cons_append]
  rw [List.dropWhile_cons, hb]
  simp [List.reverse_append]

theorem pyStrip_wrap (s : Str) :
    pyStrip ("```json".data ++ s ++ "```".data) = "```json".data ++ s ++ "```".data := by
  have hshape : "```json".data ++ s ++ "```".data =
      '`' :: (("``json".data ++ s ++ "``".data) ++ ['`']) := by
    simp [List.append_assoc]
  rw [hshape]
  exact pyStrip_keep '`' '`' _ (by decide) (by decide)

theorem removePre_wrap (s : Str) :
    removePre ("```json".data ++ s ++ "```".data) ("```json".data) = s ++ "```".data := by
  unfold removePre
  rw [List.append_assoc, if_pos (isPrefixOf_append_self _ _)]
  exact List.drop_left _ _

theorem removeSuf_close (s : Str) :
    removeSuf (s ++ "```".data) ("```".data) = s := by
  unfold removeSuf
  rw [if_pos (isSuffixOf_append_self _ _)]
  simp

theorem fenceStrip_wrap (s : Str) :
    fenceStrip ("```json".data ++ s ++ "```".data) = pyStrip s := by
  unfold fenceStrip
  rw [if_pos]
  · rw [removePre_wrap, removeSuf_close]
  · rw [List.append_assoc, isPrefixOf_append_self, ← List.append_assoc, isSuffixOf_append_self]
    rfl

theorem elseEnvelope_shape (t : Json) (r : ResVal) :
    elseEnvelope t r = '*' :: (("*✅ Tool:** `".data ++ pyStrJ t ++ "`\n\n```json\n".data ++
      safe_json_res r ++ "\n``".data) ++ ['`']) := by
  unfold elseEnvelope
  simp [List.append_assoc]

theorem pyStrip_elseEnvelope (t : Json) (r : ResVal) :
    pyStrip (elseEnvelope t r) = elseEnvelope t r := by
  rw [elseEnvelope_shape]
  exact pyStrip_keep '*' '`' _ (by decide) (by decide)

theorem elseEnvelope_ne_nil (t : Json) (r : ResVal) : elseEnvelope t r ≠ [] := by
  rw [elseEnvelope_shape]
  exact List.cons_ne_nil _ _

theorem finishTurn_ok (stt : SessionState) (calls : List (Json × Json)) (content : Str)
    (a i d : Option Str) (r : TurnResult)
    (h : finishTurn stt calls content a i d = Except.ok r) :
    r.state.messages = stt.messages ++
      (if pyStrip content ≠ [] then [⟨"assistant".data, content⟩] else []) ∧
    r.content = content ∧
    r.state.camera_enabled = stt.camera_enabled ∧
    r.state.captured_image = stt.captured_image ∧
    r.state.last_uploaded_image_url = stt.last_uploaded_image_url := by
  unfold finishTurn at h
  injection h with h
  subst h
  by_cases hc : pyStrip content ≠ [] <;> simp [hc]

theorem run_turn_ok_messages (transport : Transport) (cb : Bool) (pic : Option Str)
    (up : Str) (oracle : OracleReply) (ui : Str) (st0 : SessionState) (r : TurnResult)
    (h : run_turn transport cb pic up oracle ui st0 = Except.ok r) :
    r.state.messages = st0.messages ++ ⟨"user".data, ui⟩ ::
      (if pyStrip r.content ≠ [] then [⟨"assistant".data, r.content⟩] else []) := by
  unfold run_turn at h
  dsimp only at h
  repeat' split at h
  all_goals first
    | exact Except.noConfusion h
    | (obtain ⟨hm, hc, -, -, -⟩ := finishTurn_ok _ _ _ _ _ _ _ h
       rw [hm, hc]
       simp [List.append_assoc])

theorem run_turn_fault_messages (transport : Transport) (cb : Bool) (pic : Option Str)
    (up : Str) (oracle : OracleReply) (ui : Str) (st0 : SessionState) (f : Fault)
    (h : run_turn transport cb pic up oracle ui st0 = Except.error f) :
    f.state.messages = st0.messages ++ [⟨"user".data, ui⟩] := by
  unfold run_turn at h
  dsimp only at h
  repeat' split at h
  all_goals first
    | (injection h with h; subst h; rfl)
    | exact absurd h (by unfold finishTurn; exact fun hh => Except.noConfusion hh)

theorem run_turn_ok_frame (transport : Transport) (cb : Bool) (pic : Option Str)
    (up : Str) (oracle : OracleReply) (ui : Str) (st0 : SessionState)
    (kvs : List (Str × Json)) (r : TurnResult)
    (hsel : select_tool_using_gpt oracle = Json.obj kvs)
    (hcap : ((List.lookup ("tool".data) kvs).getD Json.null).isStrVal
      ("capture_image_from_camera".data) = false)
    (h : run_turn transport cb pic up oracle ui st0 = Except.ok r) :
    r.state.camera_enabled = st0.camera_enabled ∧
    r.state.captured_image = st0.captured_image ∧
    r.state.last_uploaded_image_url = st0.last_uploaded_image_url := by
  unfold run_turn at h
  rw [hsel] at h
  dsimp only at h
  repeat' split at h
  all_goals first
    | exact Except.noConfusion h
    | (obtain ⟨-, -, hce, hci, hcl⟩ := finishTurn_ok _ _ _ _ _ _ _ h
       exact ⟨hce, hci, hcl⟩)
    | simp_all

/-! Claim theorems. -/


/-- C9: for every call to update_member in which any of the optional fields
name, email, role, or status is omitted, the update payload sent to the
record store contains a null value for that field (omitted fields are
overwritten with null, not left unchanged). -/
theorem update_member_payload_nulls_omitted (n e r s : Option Str) :
    List.lookup ("name".data) (update_member_payload n e r s) = some (optToJson n) ∧
    List.lookup ("email".data) (update_member_payload n e r s) = some (optToJson e) ∧
    List.lookup ("role".data) (update_member_payload n e r s) = some (optToJson r) ∧
    List.lookup ("status".data) (update_member_payload n e r s) = some (optToJson s) ∧
    optToJson none = Json.null := by
  refine ⟨rfl, rfl, rfl, rfl, rfl⟩

/-- C10: for every member_id matching no record, get_member_by_id returns
None (a value), whereas delete_member raises an IndexError by indexing an
empty result set instead of returning a value. -/
theorem get_returns_none_delete_raises (store : List Member) (mid : Str)
    (h : rowsForId store mid = []) :
    get_member_by_id store mid = none ∧
    delete_member store mid = Except.error ("IndexError: list index out of range".data) := by
  unfold get_member_by_id delete_member
  rw [h]
  exact ⟨rfl, rfl⟩

/-- Witness for C10 at the empty store. -/
theorem get_returns_none_delete_raises_witness :
    get_member_by_id [] ("m1".data) = none ∧
    delete_member [] ("m1".data) = Except.error ("IndexError: list index out of range".data) :=
  get_returns_none_delete_raises [] ("m1".data) (by rfl)

/-- C3 counterexample: a reply that parses but lacks the tool key is returned
unchanged by the router, not remapped to the fallback decision whose tool is
chat_gpt4o. -/
theorem parsed_reply_missing_tool_key_not_fallback :
    select_tool_using_gpt (OracleReply.reply ("\x7b\"args\": \x7b\x7d\x7d".data)) =
      Json.obj [("args".data, Json.obj [])] ∧
    jget (select_tool_using_gpt (OracleReply.reply ("\x7b\"args\": \x7b\x7d\x7d".data)))
      ("tool".data) = none := by
  exact ⟨rfl, rfl⟩

/-- C3 (amended): for every oracle reply whose stripped text is unparseable
JSON, and for every oracle failure, the router returns the fallback decision:
tool chat_gpt4o with a non-empty diagnostic args.prompt embedding the raw
output or exception text; a parseable reply is returned as parsed even when
the tool key is missing. -/
theorem router_fallback_on_parse_failure (content e : Str)
    (h : jsonLoads (fenceStrip (pyStrip content)) = none) :
    select_tool_using_gpt (OracleReply.reply content) =
      fallbackDecision (fenceStrip (pyStrip content)) ∧
    select_tool_using_gpt (OracleReply.failure e) = fallbackDecision e ∧
    (∀ d, jget (fallbackDecision d) ("tool".data) = some (Json.str ("chat_gpt4o".data)) ∧
      (∀ p, jget (fallbackDecision d) ("args".data) = some p →
        jget p ("prompt".data) = some (Json.str ("ERROR: Invalid JSON returned: ".data ++ d)))) ∧
    (∀ d, ("ERROR: Invalid JSON returned: ".data ++ d).length > 0) ∧
    (∀ j, jsonLoads (fenceStrip (pyStrip content)) = some j →
      select_tool_using_gpt (OracleReply.reply content) = j) := by
  refine ⟨?_, rfl, ?_, ?_, ?_⟩
  · unfold select_tool_using_gpt
    dsimp only
    rw [h]
  · intro d
    refine ⟨rfl, ?_⟩
    intro p hp
    injection hp with hp
    subst hp
    rfl
  · intro d
    simp [List.length_append]
  · intro j hj
    rw [hj] at h
    exact Option.noConfusion h

/-- Witness for C3 on a concrete unparseable reply and a concrete failure. -/
theorem router_fallback_on_parse_failure_witness :
    select_tool_using_gpt (OracleReply.reply ("oops".data)) =
      fallbackDecision (fenceStrip (pyStrip ("oops".data))) ∧
    select_tool_using_gpt (OracleReply.failure ("boom".data)) = fallbackDecision ("boom".data) ∧
    (∀ d, jget (fallbackDecision d) ("tool".data) = some (Json.str ("chat_gpt4o".data)) ∧
      (∀ p, jget (fallbackDecision d) ("args".data) = some p →
        jget p ("prompt".data) = some (Json.str ("ERROR: Invalid JSON returned: ".data ++ d)))) ∧
    (∀ d, ("ERROR: Invalid JSON returned: ".data ++ d).length > 0) ∧
    (∀ j, jsonLoads (fenceStrip (pyStrip ("oops".data))) = some j →
      select_tool_using_gpt (OracleReply.reply ("oops".data)) = j) :=
  router_fallback_on_parse_failure ("oops".data) ("boom".data) (by rfl)



/-- C5 counterexample: a reply wrapped in a bare (untagged) code fence is not
stripped: it routes to the parse-failure fallback, while the unwrapped
equivalent routes to the decoded decision, so the two decisions differ. -/
theorem bare_fence_reply_changes_decision :
    select_tool_using_gpt (OracleReply.reply
        ("```\n\x7b\"tool\": \"chat_gpt4o\", \"args\": \x7b\x7d\x7d\n```".data)) =
      fallbackDecision ("```\n\x7b\"tool\": \"chat_gpt4o\", \"args\": \x7b\x7d\x7d\n```".data) ∧
    select_tool_using_gpt (OracleReply.reply
        ("\x7b\"tool\": \"chat_gpt4o\", \"args\": \x7b\x7d\x7d".data)) =
      Json.obj [("tool".data, Json.str ("chat_gpt4o".data)), ("args".data, Json.obj [])] ∧
    fallbackDecision ("```\n\x7b\"tool\": \"chat_gpt4o\", \"args\": \x7b\x7d\x7d\n```".data) ≠
      Json.obj [("tool".data, Json.str ("chat_gpt4o".data)), ("args".data, Json.obj [])] := by
  refine ⟨rfl, rfl, ?_⟩
  intro hEq
  simp [fallbackDecision] at hEq

/-- C5 (amended): fence stripping applies only to replies fenced in the exact
json-tagged style; for every inner text not itself of that shape, routing the
json-fence-wrapped reply yields the same decision as routing the unwrapped
reply. -/
theorem json_fenced_reply_equals_unwrapped (s : Str)
    (h : (("```json".data).isPrefixOf (pyStrip s) &&
          ("```".data).isSuffixOf (pyStrip s)) = false) :
    select_tool_using_gpt (OracleReply.reply ("```json".data ++ s ++ "```".data)) =
      select_tool_using_gpt (OracleReply.reply s) := by
  unfold select_tool_using_gpt
  dsimp only
  rw [pyStrip_wrap, fenceStrip_wrap]
  have hid : fenceStrip (pyStrip s) = pyStrip s := by
    unfold fenceStrip
    rw [h]
    simp
  rw [hid]

/-- Witness for C5 on a concrete routing decision body. -/
theorem json_fenced_reply_equals_unwrapped_witness :
    select_tool_using_gpt (OracleReply.reply
        ("```json".data ++ "\x7b\"tool\": \"chat_gpt4o\", \"args\": \x7b\x7d\x7d".data ++ "```".data)) =
      select_tool_using_gpt (OracleReply.reply
        ("\x7b\"tool\": \"chat_gpt4o\", \"args\": \x7b\x7d\x7d".data)) :=
  json_fenced_reply_equals_unwrapped
    ("\x7b\"tool\": \"chat_gpt4o\", \"args\": \x7b\x7d\x7d".data) (by rfl)

/-- C4 counterexample: a parsed decision naming a tool outside the registry is
not remapped to the fallback tool; the unknown name is dispatched to the
transport as the first invocation of the turn. -/
theorem unknown_tool_dispatched_unchanged :
    (run_turn (constTransport (ResVal.content [Item.textItem ("x".data)])) false none []
        (OracleReply.reply ("\x7b\"tool\": \"bogus_tool\", \"args\": \x7b\x7d\x7d".data))
        ("do it".data) initState).map (fun r => r.calls) =
      Except.ok [(Json.str ("bogus_tool".data), Json.obj [])] := by
  rfl

/-- C4 (amended): no registry validation occurs: whenever the oracle reply
parses to an object, the decision's tool field (missing keys defaulting to
None) and args field are passed verbatim to the transport as the first
invocation of the turn; only unparseable replies are remapped to the fallback
tool. -/
theorem decision_tool_passed_verbatim (transport : Transport) (cb : Bool)
    (pic : Option Str) (up : Str) (oracle : OracleReply) (ui : Str)
    (st0 : SessionState) (kvs : List (Str × Json))
    (h1 : select_tool_using_gpt oracle = Json.obj kvs) :
    (outcomeCalls (run_turn transport cb pic up oracle ui st0)).head? =
      some ((List.lookup ("tool".data) kvs).getD Json.null,
            (List.lookup ("args".data) kvs).getD (Json.obj [])) := by
  unfold run_turn
  rw [h1]
  dsimp only
  repeat' split
  all_goals simp [finishTurn, outcomeCalls]

/-- Witness for C4: an unknown tool name reaches the transport verbatim. -/
theorem decision_tool_passed_verbatim_witness :
    (outcomeCalls (run_turn (constTransport (ResVal.plain ("x".data))) false none []
        (OracleReply.reply ("\x7b\"tool\": \"bogus\", \"args\": \x7b\"a\": 1\x7d\x7d".data))
        ("hi".data) initState)).head? =
      some ((List.lookup ("tool".data)
              [("tool".data, Json.str ("bogus".data)),
               ("args".data, Json.obj [("a".data, Json.num 1)])]).getD Json.null,
            (List.lookup ("args".data)
              [("tool".data, Json.str ("bogus".data)),
               ("args".data, Json.obj [("a".data, Json.num 1)])]).getD (Json.obj [])) :=
  decision_tool_passed_verbatim _ false none [] _ ("hi".data) initState
    [("tool".data, Json.str ("bogus".data)), ("args".data, Json.obj [("a".data, Json.num 1)])]
    (by rfl)



/-- C1 counterexample: a describe_image_from_camera decision with no recorded
artifact reference still invokes the transport once (the tool-generic
run_tool call preceding the branch), even though the guidance envelope is
returned. -/
theorem describe_without_artifact_transport_still_invoked :
    (run_turn (constTransport (ResVal.content [Item.textItem ("hi".data)])) false none []
        (OracleReply.reply
          ("\x7b\"tool\": \"describe_image_from_camera\", \"args\": \x7b\x7d\x7d".data))
        ("describe it".data) initState).map (fun r => (r.calls.length, r.content)) =
      Except.ok (1, "📸 Please capture an image first.".data) := by
  rfl

/-- C1 (amended): with no recorded artifact reference, the describe branch
itself makes no transport invocation and returns the guidance envelope asking
the user to capture an image first; the turn still carries exactly the one
tool-generic transport invocation made before the branch. -/
theorem describe_without_artifact_guidance
    (transport : Transport) (cb : Bool) (pic : Option Str) (up : Str)
    (oracle : OracleReply) (ui : Str) (st0 : SessionState)
    (kvs : List (Str × Json))
    (h1 : select_tool_using_gpt oracle = Json.obj kvs)
    (h2 : List.lookup ("tool".data) kvs =
      some (Json.str ("describe_image_from_camera".data)))
    (h3 : st0.last_uploaded_image_url = none) :
    run_turn transport cb pic up oracle ui st0 =
      Except.ok ⟨{ st0 with
          messages := st0.messages ++ [⟨"user".data, ui⟩,
            ⟨"assistant".data, "📸 Please capture an image first.".data⟩],
          selected_tool := some ("describe_image_from_camera".data) },
        [(Json.str ("describe_image_from_camera".data),
          (List.lookup ("args".data) kvs).getD (Json.obj []))],
        "📸 Please capture an image first.".data, none, none, none⟩ := by
  unfold run_turn
  rw [h1]
  simp only [h2, Option.getD_some, Json.isStrVal]
  norm_num
  rw [h3]
  show finishTurn _ _ _ _ _ _ = _
  rw [finishTurn]
  rw [if_pos (by decide)]
  simp [List.append_assoc]

/-- Witness for C1 on a concrete decision and fresh session state. -/
theorem describe_without_artifact_guidance_witness :
    run_turn (constTransport (ResVal.content [Item.textItem ("hi".data)])) false none []
        (OracleReply.reply
          ("\x7b\"tool\": \"describe_image_from_camera\", \"args\": \x7b\x7d\x7d".data))
        ("describe it".data) initState =
      Except.ok ⟨{ initState with
          messages := initState.messages ++ [⟨"user".data, "describe it".data⟩,
            ⟨"assistant".data, "📸 Please capture an image first.".data⟩],
          selected_tool := some ("describe_image_from_camera".data) },
        [(Json.str ("describe_image_from_camera".data),
          (List.lookup ("args".data)
            [("tool".data, Json.str ("describe_image_from_camera".data)),
             ("args".data, Json.obj [])]).getD (Json.obj []))],
        "📸 Please capture an image first.".data, none, none, none⟩ :=
  describe_without_artifact_guidance _ false none [] _ ("describe it".data) initState
    [("tool".data, Json.str ("describe_image_from_camera".data)), ("args".data, Json.obj [])]
    (by rfl) (by rfl) (by rfl)

/-- C6 counterexample: a describe_image_from_camera decision with a recorded
artifact reference invokes the transport twice in the turn, not exactly once:
first the tool-generic call with the router-supplied arguments, then the
describe call with the recorded reference. -/
theorem describe_with_artifact_two_transport_calls :
    (run_turn (constTransport (ResVal.content [Item.textItem ("a cat".data)])) false none []
        (OracleReply.reply
          ("\x7b\"tool\": \"describe_image_from_camera\", \"args\": \x7b\"image_url\": \"http://wrong\"\x7d\x7d".data))
        ("describe it".data)
        { initState with last_uploaded_image_url := some ("http://real".data) }).map
      (fun r => r.calls) =
    Except.ok
      [(Json.str ("describe_image_from_camera".data),
        Json.obj [("image_url".data, Json.str ("http://wrong".data))]),
       (Json.str ("describe_image_from_camera".data),
        Json.obj [("image_url".data, Json.str ("http://real".data))])] := by
  rfl

/-- C6 (amended): with a recorded artifact reference, the describe branch
invokes the transport with that reference as the image_url argument and
renders its caption; the turn as a whole carries two transport invocations,
the tool-generic one and the describe one. -/
theorem describe_with_artifact_uses_recorded_reference
    (transport : Transport) (cb : Bool) (pic : Option Str) (up : Str)
    (oracle : OracleReply) (ui : Str) (st0 : SessionState)
    (kvs : List (Str × Json)) (url t : Str) (rest : List Item)
    (h1 : select_tool_using_gpt oracle = Json.obj kvs)
    (h2 : List.lookup ("tool".data) kvs =
      some (Json.str ("describe_image_from_camera".data)))
    (h3 : st0.last_uploaded_image_url = some url)
    (htr : transport (Json.str ("describe_image_from_camera".data))
        (Json.obj [("image_url".data, Json.str url)]) =
      TransportOutcome.ok (ResVal.content (Item.textItem t :: rest))) :
    run_turn transport cb pic up oracle ui st0 =
      Except.ok ⟨{ st0 with
          messages := st0.messages ++ [⟨"user".data, ui⟩],
          selected_tool := some ("describe_image_from_camera".data) },
        [(Json.str ("describe_image_from_camera".data),
          (List.lookup ("args".data) kvs).getD (Json.obj [])),
         (Json.str ("describe_image_from_camera".data),
          Json.obj [("image_url".data, Json.str url)])],
        [], none, none, some t⟩ := by
  unfold run_turn
  rw [h1]
  simp only [h2, Option.getD_some, Json.isStrVal]
  norm_num
  rw [h3]
  show (match transport _ _ with
    | TransportOutcome.exn e => _
    | TransportOutcome.ok r => _) = _
  rw [htr]
  show finishTurn _ _ _ _ _ _ = _
  rw [finishTurn]
  rw [if_neg (by decide)]

/-- Witness for C6 on a concrete decision, state and transport. -/
theorem describe_with_artifact_uses_recorded_reference_witness :
    run_turn (constTransport (ResVal.content [Item.textItem ("a cat".data)])) false none []
        (OracleReply.reply
          ("\x7b\"tool\": \"describe_image_from_camera\", \"args\": \x7b\x7d\x7d".data))
        ("describe it".data)
        { initState with last_uploaded_image_url := some ("http://real".data) } =
      Except.ok ⟨{ { initState with last_uploaded_image_url := some ("http://real".data) } with
          messages := { initState with
            last_uploaded_image_url := some ("http://real".data) }.messages ++
              [⟨"user".data, "describe it".data⟩],
          selected_tool := some ("describe_image_from_camera".data) },
        [(Json.str ("describe_image_from_camera".data),
          (List.lookup ("args".data)
            [("tool".data, Json.str ("describe_image_from_camera".data)),
             ("args".data, Json.obj [])]).getD (Json.obj [])),
         (Json.str ("describe_image_from_camera".data),
          Json.obj [("image_url".data, Json.str ("http://real".data))])],
        [], none, none, some ("a cat".data)⟩ :=
  describe_with_artifact_uses_recorded_reference _ false none [] _ ("describe it".data)
    { initState with last_uploaded_image_url := some ("http://real".data) }
    [("tool".data, Json.str ("describe_image_from_camera".data)), ("args".data, Json.obj [])]
    ("http://real".data) ("a cat".data) [] (by rfl) (by rfl) (by rfl) (by rfl)



theorem else_branch_transport_error (transport : Transport) (cb : Bool) (pic : Option Str)
    (up : Str) (oracle : OracleReply) (ui : Str) (st0 : SessionState)
    (kvs : List (Str × Json)) (tv e : Str)
    (h1 : select_tool_using_gpt oracle = Json.obj kvs)
    (h2 : List.lookup ("tool".data) kvs = some (Json.str tv))
    (hg : (tv == "gen_image_dalle3".data) = false)
    (ht : (tv == "text_to_speech_gpt4o".data) = false)
    (hc : (tv == "capture_image_from_camera".data) = false)
    (hd : (tv == "describe_image_from_camera".data) = false)
    (htr : transport (Json.str tv) ((List.lookup ("args".data) kvs).getD (Json.obj [])) =
      TransportOutcome.exn e) :
    run_turn transport cb pic up oracle ui st0 =
      Except.ok ⟨{ st0 with messages := st0.messages ++ [⟨"user".data, ui⟩,
          ⟨"assistant".data, elseEnvelope (Json.str tv) (ResVal.errdict e)⟩] },
        [(Json.str tv, (List.lookup ("args".data) kvs).getD (Json.obj []))],
        elseEnvelope (Json.str tv) (ResVal.errdict e), none, none, none⟩ := by
  unfold run_turn
  rw [h1]
  dsimp only
  rw [h2]
  simp only [Option.getD_some, Json.isStrVal]
  rw [hg, ht, hc, hd, htr]
  simp only [Bool.false_eq_true, if_false]
  unfold finishTurn
  rw [if_pos (fun hh => elseEnvelope_ne_nil _ _ ((pyStrip_elseEnvelope _ _).symm.trans hh))]
  simp [List.append_assoc]

/-- C2 counterexample: an exception raised by the transport on the describe
branch second run_tool call (the one outside the try block) escapes the turn
as an unhandled fault instead of an error envelope. -/
theorem second_describe_call_exception_unhandled :
    run_turn (fun _ a => match jget a ("image_url".data) with
        | some _ => TransportOutcome.exn ("boom".data)
        | none => TransportOutcome.ok (ResVal.content [Item.textItem ("x".data)])) false none []
      (OracleReply.reply
        ("\x7b\"tool\": \"describe_image_from_camera\", \"args\": \x7b\x7d\x7d".data))
      ("describe it".data) { initState with last_uploaded_image_url := some ("http://real".data) }
    = Except.error ⟨"boom".data,
        { initState with
            messages := [⟨"user".data, "describe it".data⟩],
            selected_tool := some ("describe_image_from_camera".data),
            last_uploaded_image_url := some ("http://real".data) },
        [(Json.str ("describe_image_from_camera".data), Json.obj []),
         (Json.str ("describe_image_from_camera".data),
          Json.obj [("image_url".data, Json.str ("http://real".data))])]⟩ := by
  rfl

/-- C2 (amended): an exception raised by the turn's first, tool-generic
transport invocation never terminates the turn: whenever the routed decision
parses to an object and is not a describe_image_from_camera decision with an
artifact reference set, the turn completes whatever the transport does; for
every decision outside the four specially handled tools, a first-call
exception is rendered as an error envelope embedding the exception text (the
specially handled branches complete without rendering such an envelope for
it); an exception from the describe branch second invocation, the one outside
the try block, instead escapes as an unhandled fault; in every outcome,
completed or faulted, the user's message has been appended to the
conversation history. -/
theorem transport_exception_handling (transport : Transport) (cb : Bool)
    (pic : Option Str) (up : Str) (oracle : OracleReply) (ui : Str)
    (st0 : SessionState) :
    (∀ kvs tv e, select_tool_using_gpt oracle = Json.obj kvs →
      List.lookup ("tool".data) kvs = some (Json.str tv) →
      (tv == "gen_image_dalle3".data) = false →
      (tv == "text_to_speech_gpt4o".data) = false →
      (tv == "capture_image_from_camera".data) = false →
      (tv == "describe_image_from_camera".data) = false →
      transport (Json.str tv) ((List.lookup ("args".data) kvs).getD (Json.obj [])) =
        TransportOutcome.exn e →
      run_turn transport cb pic up oracle ui st0 =
        Except.ok ⟨{ st0 with messages := st0.messages ++ [⟨"user".data, ui⟩,
            ⟨"assistant".data, elseEnvelope (Json.str tv) (ResVal.errdict e)⟩] },
          [(Json.str tv, (List.lookup ("args".data) kvs).getD (Json.obj []))],
          elseEnvelope (Json.str tv) (ResVal.errdict e), none, none, none⟩) ∧
    (∀ kvs, select_tool_using_gpt oracle = Json.obj kvs →
      (((List.lookup ("tool".data) kvs).getD Json.null).isStrVal
          ("describe_image_from_camera".data) = false ∨
        st0.last_uploaded_image_url = none) →
      ∃ r, run_turn transport cb pic up oracle ui st0 = Except.ok r) ∧
    (∀ f, run_turn transport cb pic up oracle ui st0 = Except.error f →
      f.state.messages = st0.messages ++ [⟨"user".data, ui⟩]) := by
  refine ⟨?_, ?_, ?_⟩
  · intro kvs tv e h1 h2 hg ht hc hd htr
    exact else_branch_transport_error transport cb pic up oracle ui st0 kvs tv e
      h1 h2 hg ht hc hd htr
  · intro kvs hsel hnot
    unfold run_turn
    rw [hsel]
    dsimp only
    repeat' split
    all_goals first
      | exact ⟨_, rfl⟩
      | (rcases hnot with hnot | hnot <;> simp_all)
  · intro f hf
    exact run_turn_fault_messages transport cb pic up oracle ui st0 f hf

/-- Witness for C2: a concrete caught first-call exception rendered as an
envelope, a concrete capture decision completing despite a first-call
exception, and a concrete uncaught second-call exception whose fault state
still contains the user's message. -/
theorem transport_exception_handling_witness :
    (∃ r, run_turn (fun _ _ => TransportOutcome.exn ("connection refused".data)) false none []
        (OracleReply.reply
          ("\x7b\"tool\": \"capture_image_from_camera\", \"args\": \x7b\x7d\x7d".data))
        ("open the camera".data) initState = Except.ok r) ∧
    run_turn (fun _ _ => TransportOutcome.exn ("connection refused".data)) false none []
        (OracleReply.reply ("\x7b\"tool\": \"get_all_members\", \"args\": \x7b\x7d\x7d".data))
        ("list members".data) initState =
      Except.ok ⟨{ initState with messages := initState.messages ++
          [⟨"user".data, "list members".data⟩,
           ⟨"assistant".data, elseEnvelope (Json.str ("get_all_members".data))
             (ResVal.errdict ("connection refused".data))⟩] },
        [(Json.str ("get_all_members".data),
          (List.lookup ("args".data)
            [("tool".data, Json.str ("get_all_members".data)),
             ("args".data, Json.obj [])]).getD (Json.obj []))],
        elseEnvelope (Json.str ("get_all_members".data))
          (ResVal.errdict ("connection refused".data)), none, none, none⟩ ∧
    (⟨"boom".data,
        { initState with
            messages := [⟨"user".data, "describe it".data⟩],
            selected_tool := some ("describe_image_from_camera".data),
            last_uploaded_image_url := some ("http://real".data) },
        [(Json.str ("describe_image_from_camera".data), Json.obj []),
         (Json.str ("describe_image_from_camera".data),
          Json.obj [("image_url".data, Json.str ("http://real".data))])]⟩ : Fault).state.messages =
      ({ initState with last_uploaded_image_url := some ("http://real".data) }
        : SessionState).messages ++ [⟨"user".data, "describe it".data⟩] := by
  refine ⟨?_, ?_, ?_⟩
  · exact (transport_exception_handling
      (fun _ _ => TransportOutcome.exn ("connection refused".data)) false none []
      (OracleReply.reply
        ("\x7b\"tool\": \"capture_image_from_camera\", \"args\": \x7b\x7d\x7d".data))
      ("open the camera".data) initState).2.1
      [("tool".data, Json.str ("capture_image_from_camera".data)), ("args".data, Json.obj [])]
      (by rfl) (Or.inl (by rfl))
  · exact (transport_exception_handling _ false none [] _ ("list members".data) initState).1
      [("tool".data, Json.str ("get_all_members".data)), ("args".data, Json.obj [])]
      ("get_all_members".data) ("connection refused".data)
      (by rfl) (by rfl) (by rfl) (by rfl) (by rfl) (by rfl) (by rfl)
  · exact (transport_exception_handling
      (fun _ a => match jget a ("image_url".data) with
        | some _ => TransportOutcome.exn ("boom".data)
        | none => TransportOutcome.ok (ResVal.content [Item.textItem ("x".data)]))
      false none []
      (OracleReply.reply
        ("\x7b\"tool\": \"describe_image_from_camera\", \"args\": \x7b\x7d\x7d".data))
      ("describe it".data)
      { initState with last_uploaded_image_url := some ("http://real".data) }).2.2
      _ (by rfl)



/-- C7: for every text_to_speech_gpt4o result whose first content part is a
string payload, the payload is handed to the audio renderer exactly when it
begins with the data-audio media-type prefix; any other string payload yields
an error envelope citing invalid audio data, never a best-effort render. -/
theorem tts_audio_gate (transport : Transport) (cb : Bool) (pic : Option Str)
    (up : Str) (oracle : OracleReply) (ui : Str) (st0 : SessionState)
    (kvs akvs : List (Str × Json)) (t : Str) (rest : List Item)
    (h1 : select_tool_using_gpt oracle = Json.obj kvs)
    (h2 : List.lookup ("tool".data) kvs = some (Json.str ("text_to_speech_gpt4o".data)))
    (h3 : List.lookup ("args".data) kvs = some (Json.obj akvs))
    (htr : transport (Json.str ("text_to_speech_gpt4o".data)) (Json.obj akvs) =
      TransportOutcome.ok (ResVal.content (Item.textItem t :: rest))) :
    ∃ r, run_turn transport cb pic up oracle ui st0 = Except.ok r ∧
      r.audioPlayed = (if is_data_audio_url t then some t else none) ∧
      (is_data_audio_url t = false →
        ("❌ Invalid audio data URL:\n\n```json\n".data).isPrefixOf r.content = true) := by
  have hred : run_turn transport cb pic up oracle ui st0 = Except.ok
      ⟨(if pyStrip (ttsBranch (Json.obj akvs) (ResVal.content (Item.textItem t :: rest))).1 = []
          then { st0 with
              messages := st0.messages ++ [⟨"user".data, ui⟩],
              selected_tool := some ("text_to_speech_gpt4o".data) }
          else { st0 with
              messages := st0.messages ++ [⟨"user".data, ui⟩, ⟨"assistant".data,
                (ttsBranch (Json.obj akvs) (ResVal.content (Item.textItem t :: rest))).1⟩],
              selected_tool := some ("text_to_speech_gpt4o".data) }),
        [(Json.str ("text_to_speech_gpt4o".data), Json.obj akvs)],
        (ttsBranch (Json.obj akvs) (ResVal.content (Item.textItem t :: rest))).1,
        (ttsBranch (Json.obj akvs) (ResVal.content (Item.textItem t :: rest))).2,
        none, none⟩ := by
    unfold run_turn
    rw [h1]
    dsimp only
    rw [h2, h3]
    simp only [Option.getD_some, Json.isStrVal]
    norm_num
    rw [htr]
    unfold finishTurn
    simp [ite_not, List.append_assoc]
  refine ⟨_, hred, ?_, ?_⟩
  · show (ttsBranch (Json.obj akvs) (ResVal.content (Item.textItem t :: rest))).2 = _
    unfold ttsBranch
    by_cases hg : is_data_audio_url t
    · simp [hg, pyGetPrompt]
    · simp [hg]
  · intro hng
    show (("❌ Invalid audio data URL:\n\n```json\n".data)).isPrefixOf
      (ttsBranch (Json.obj akvs) (ResVal.content (Item.textItem t :: rest))).1 = true
    unfold ttsBranch
    simp only [hng, Bool.false_eq_true, if_false]
    rw [List.append_assoc]
    exact isPrefixOf_append_self _ _

/-- Witness for C7: a non-audio payload is rejected with the invalid-audio
envelope and nothing is handed to the audio renderer. -/
theorem tts_audio_gate_witness :
    ∃ r, run_turn (constTransport (ResVal.content [Item.textItem ("hello".data)])) false none []
        (OracleReply.reply
          ("\x7b\"tool\": \"text_to_speech_gpt4o\", \"args\": \x7b\"text\": \"hi\"\x7d\x7d".data))
        ("say hi".data) initState = Except.ok r ∧
      r.audioPlayed = (if is_data_audio_url ("hello".data) then some ("hello".data) else none) ∧
      (is_data_audio_url ("hello".data) = false →
        ("❌ Invalid audio data URL:\n\n```json\n".data).isPrefixOf r.content = true) :=
  tts_audio_gate _ false none [] _ ("say hi".data) initState
    [("tool".data, Json.str ("text_to_speech_gpt4o".data)),
     ("args".data, Json.obj [("text".data, Json.str ("hi".data))])]
    [("text".data, Json.str ("hi".data))] ("hello".data) []
    (by rfl) (by rfl) (by rfl) (by rfl)



/-- C8 counterexample: a successfully described image leaves the rendered
content blank, so the assistant turn is not appended: the history grows by
the user turn only. -/
theorem successful_describe_appends_no_assistant_turn :
    (run_turn (constTransport (ResVal.content [Item.textItem ("a cat".data)])) false none []
        (OracleReply.reply
          ("\x7b\"tool\": \"describe_image_from_camera\", \"args\": \x7b\x7d\x7d".data))
        ("describe it".data)
        { initState with last_uploaded_image_url := some ("http://real".data) }).map
      (fun r => (r.state.messages, r.content)) =
    Except.ok ([⟨"user".data, "describe it".data⟩], []) := by
  rfl

/-- C8 (amended): every completed user turn appends the user turn to the
history and appends the assistant turn exactly when the rendered content is
non-blank (the successful describe path renders a blank content and appends
none); the history grows append-only; and outside the capture branch the
camera widget fields and the artifact reference are unchanged, so the mutated
session fields are the history, the selected pending tool, and, in the
capture branch only, the camera fields and the artifact reference. -/
theorem dispatch_history_append_and_frame (transport : Transport) (cb : Bool)
    (pic : Option Str) (up : Str) (oracle : OracleReply) (ui : Str)
    (st0 : SessionState) (r : TurnResult)
    (hok : run_turn transport cb pic up oracle ui st0 = Except.ok r) :
    r.state.messages = st0.messages ++ ⟨"user".data, ui⟩ ::
      (if pyStrip r.content ≠ [] then [⟨"assistant".data, r.content⟩] else []) ∧
    (∀ kvs, select_tool_using_gpt oracle = Json.obj kvs →
      ((List.lookup ("tool".data) kvs).getD Json.null).isStrVal
        ("capture_image_from_camera".data) = false →
      r.state.camera_enabled = st0.camera_enabled ∧
      r.state.captured_image = st0.captured_image ∧
      r.state.last_uploaded_image_url = st0.last_uploaded_image_url) :=
  ⟨run_turn_ok_messages transport cb pic up oracle ui st0 r hok,
   fun kvs hsel hcap =>
     run_turn_ok_frame transport cb pic up oracle ui st0 kvs r hsel hcap hok⟩

/-- Witness for C8 on a concrete chat-style turn. -/
theorem dispatch_history_append_and_frame_witness :
    (⟨⟨[⟨"user".data, "hi".data⟩,
        ⟨"assistant".data, elseEnvelope (Json.str ("z".data)) (ResVal.plain ("k".data))⟩],
       none, false, none, none⟩,
      [(Json.str ("z".data), Json.obj [])],
      elseEnvelope (Json.str ("z".data)) (ResVal.plain ("k".data)),
      none, none, none⟩ : TurnResult).state.messages =
      initState.messages ++ ⟨"user".data, "hi".data⟩ ::
        (if pyStrip (⟨⟨[⟨"user".data, "hi".data⟩,
            ⟨"assistant".data, elseEnvelope (Json.str ("z".data)) (ResVal.plain ("k".data))⟩],
           none, false, none, none⟩,
          [(Json.str ("z".data), Json.obj [])],
          elseEnvelope (Json.str ("z".data)) (ResVal.plain ("k".data)),
          none, none, none⟩ : TurnResult).content ≠ []
         then [⟨"assistant".data, (⟨⟨[⟨"user".data, "hi".data⟩,
            ⟨"assistant".data, elseEnvelope (Json.str ("z".data)) (ResVal.plain ("k".data))⟩],
           none, false, none, none⟩,
          [(Json.str ("z".data), Json.obj [])],
          elseEnvelope (Json.str ("z".data)) (ResVal.plain ("k".data)),
          none, none, none⟩ : TurnResult).content⟩] else []) ∧
    (∀ kvs, select_tool_using_gpt
        (OracleReply.reply ("\x7b\"tool\": \"z\", \"args\": \x7b\x7d\x7d".data)) = Json.obj kvs →
      ((List.lookup ("tool".data) kvs).getD Json.null).isStrVal
        ("capture_image_from_camera".data) = false →
      (⟨⟨[⟨"user".data, "hi".data⟩,
          ⟨"assistant".data, elseEnvelope (Json.str ("z".data)) (ResVal.plain ("k".data))⟩],
         none, false, none, none⟩,
        [(Json.str ("z".data), Json.obj [])],
        elseEnvelope (Json.str ("z".data)) (ResVal.plain ("k".data)),
        none, none, none⟩ : TurnResult).state.camera_enabled = initState.camera_enabled ∧
      (⟨⟨[⟨"user".data, "hi".data⟩,
          ⟨"assistant".data, elseEnvelope (Json.str ("z".data)) (ResVal.plain ("k".data))⟩],
         none, false, none, none⟩,
        [(Json.str ("z".data), Json.obj [])],
        elseEnvelope (Json.str ("z".data)) (ResVal.plain ("k".data)),
        none, none, none⟩ : TurnResult).state.captured_image = initState.captured_image ∧
      (⟨⟨[⟨"user".data, "hi".data⟩,
          ⟨"assistant".data, elseEnvelope (Json.str ("z".data)) (ResVal.plain ("k".data))⟩],
         none, false, none, none⟩,
        [(Json.str ("z".data), Json.obj [])],
        elseEnvelope (Json.str ("z".data)) (ResVal.plain ("k".data)),
        none, none, none⟩ : TurnResult).state.last_uploaded_image_url =
        initState.last_uploaded_image_url) :=
  dispatch_history_append_and_frame
    (constTransport (ResVal.plain ("k".data))) false none []
    (OracleReply.reply ("\x7b\"tool\": \"z\", \"args\": \x7b\x7d\x7d".data)) ("hi".data)
    initState _ (by rfl)

end MCP
